import Mathlib

/-!
Verification development for the ag-grid user-component factory
(`packages/ag-grid-community/src/ts/components/framework/userComponentFactory.ts`).

The embedding models JavaScript objects as finite association lists of
JSON-like values, and the factory's dependency beans (registry, metadata
provider, framework wrapper, grid options) as an explicit `Factory` record.
-/

namespace AgGrid

/-- JSON-like runtime values, enough to model the params objects the factory
merges and hands to component `init`. -/
inductive JValue where
  | vnum (n : Int)
  | vstr (s : String)
  | vbool (b : Bool)
  | vnull
  | vobj (fields : List (String × JValue))
deriving Repr

abbrev JObj := List (String × JValue)

/-- Lookup of a key in an object (first binding wins, as JS objects have
unique keys and our `setKey` keeps them unique). -/
def getKey : JObj → String → Option JValue
  | [], _ => none
  | (k', v') :: rest, k => if k' = k then some v' else getKey rest k

/-- JS property assignment `o[k] = v`: replaces in place when the key exists
(keeping its position, as JS does), otherwise appends. -/
def setKey : JObj → String → JValue → JObj
  | [], k, v => [(k, v)]
  | (k', v') :: rest, k, v => if k' = k then (k, v) :: rest else (k', v') :: setKey rest k v

/-- JS truthiness of the values we track. -/
def JValue.truthy : JValue → Bool
  | .vnum n => n != 0
  | .vstr s => s != ""
  | .vbool b => b
  | .vnull => false
  | .vobj _ => true

/-- Truthiness of an optional value; JS `null`/`undefined` are falsy. -/
def optTruthy : Option JValue → Bool
  | none => false
  | some v => v.truthy

mutual
/-- Modelled from the spec: `_.mergeDeep` from `utils` is not in src/.
"Merge is recursive — nested keys present in multiple sources combine, with
higher-precedence leaf values overwriting lower ones at any depth."  When both
the old and the new value at a key are objects the merge recurses, otherwise
the new value overwrites. -/
def mergeVal : JValue → JValue → JValue
  | .vobj d, .vobj s => .vobj (mergeObj d s)
  | _, s => s

/-- Merge every binding of `source` into `dest`, left to right. -/
def mergeObj : JObj → JObj → JObj
  | dest, [] => dest
  | dest, (k, v) :: rest =>
      match getKey dest k with
      | some old => mergeObj (setKey dest k (mergeVal old v)) rest
      | none => mergeObj (setKey dest k v) rest
end

/-! ## Component model

`ComponentType` and `ComponentSource` are the enums of
`userComponentFactory.ts`; `RegisteredComponentSource` is the registry-side
enum imported from `userComponentRegistry.ts`. -/

inductive ComponentType where
  | PLAIN_JAVASCRIPT
  | FRAMEWORK
deriving DecidableEq, Repr

inductive ComponentSource where
  | DEFAULT
  | REGISTERED_BY_NAME
  | HARDCODED
deriving DecidableEq, Repr

inductive RegisteredComponentSource where
  | DEFAULT
  | REGISTERED
deriving DecidableEq, Repr

/-- Modelled from the spec: the `Promise` type from `utils` is not in src/.
"The public creation call always returns a future; if initialization is
synchronous the future resolves without ever suspending the caller"; "a
deferred return resolves the future once real initialization completes"; "a
failure during init surfaces through the future's failure channel."
`resolved a` is a future that is already settled with `a`;
`pending t o` settles with outcome `o` at the external completion event `t`. -/
inductive AgPromise (α : Type) where
  | resolved (a : α)
  | pending (t : Nat) (o : Except Unit α)
deriving Repr

/-- `Promise.map`: transforms the eventual value, preserving whether and when
the future settles, and preserving failure. -/
def AgPromise.map {α β : Type} (f : α → β) : AgPromise α → AgPromise β
  | .resolved a => .resolved (f a)
  | .pending t (.ok a) => .pending t (.ok (f a))
  | .pending t (.error e) => .pending t (.error e)

/-- The behavioural prototype a constructor (or the framework wrapper)
stamps onto fresh instances: an identity tag, whether the instance exposes an
`init` entry point, and what `init` returns for given params (`none` = plain
synchronous `undefined` return, `some p` = a returned promise). -/
structure InstanceProto where
  tag : Nat
  hasInit : Bool
  initBehaviour : JObj → Option (AgPromise Unit)

/-- A created component instance: its prototype, whether the context has
wired it (`context.wireBean`), and the params its `init` received, if any. -/
structure Instance where
  tag : Nat
  hasInit : Bool
  initBehaviour : JObj → Option (AgPromise Unit)
  wired : Bool
  initArg : Option JObj

/-- `new clazz()`: a fresh, unwired instance of the class. -/
def newInstance (c : InstanceProto) : Instance :=
  { tag := c.tag, hasInit := c.hasInit, initBehaviour := c.initBehaviour,
    wired := false, initArg := none }

/-- A bare JS function given as a component spec.  Its body is opaque to the
factory (it is only ever stored, or invoked by the synthetic wrapper, which no
claim observes), so it is modelled as an identity tag. -/
abbrev JsFunc := Nat

/-- The payload stored for a component in the registry, or sitting at the
`P+"Framework"` slot: a native class (recognised by
`agComponentUtils.doesImplementIComponent`), a bare function, or a foreign
framework class (opaque, only ever handed to the framework wrapper). -/
inductive RegisteredInput where
  | rComp (c : InstanceProto)
  | rFunc (f : JsFunc)
  | rFw (fw : Nat)

/-- A registry entry (`RegisteredComponent` of `userComponentRegistry.ts`). -/
structure RegisteredComponent where
  component : RegisteredInput
  type : ComponentType
  source : RegisteredComponentSource

/-- `ComponentMetadata` from `componentMetadataProvider.ts`. -/
structure ComponentMetadata where
  mandatoryMethodList : List String
  optionalMethodList : List String

/-- The class reference held by a resolved `ComponentClassDef`: a native JS
class, the synthetic wrapper adapted from a bare function, or a raw
framework payload destined for the framework wrapper. -/
inductive CompRef where
  | jsClass (c : InstanceProto)
  | adapted (propertyName : String) (f : RegisteredInput)
  | fwRaw (v : RegisteredInput)

/-- `ComponentClassDef` from `userComponentFactory.ts`. -/
structure ComponentClassDef where
  component : CompRef
  type : ComponentType
  source : ComponentSource
  paramsFromSelector : Option JObj

/-- `ComponentSelectorResult` from `userComponentFactory.ts`. -/
structure ComponentSelectorResult where
  component : Option String
  params : Option JObj

/-- A selector function at `P+"Selector"`; returning `none` models a selector
that returns `null`/`undefined`. -/
abbrev SelectorFunc := JObj → Option ComponentSelectorResult

/-- The raw value found at the holder's `P` slot, pre-tagged with the outcome
of the dynamic checks the factory applies to it (`typeof x === 'string'`,
`typeof x === 'boolean'`, `agComponentUtils.doesImplementIComponent x` —
the latter is modelled from the spec, "a value recognized as already
satisfying the target contract is a native instance", since
`agComponentUtils.ts` is not in src/): `vComp` is exactly a value on which
`doesImplementIComponent` is true, `vFunc` any remaining (callable) value. -/
inductive PropSlotValue where
  | vTrue
  | vFalse
  | vStr (s : String)
  | vComp (c : InstanceProto)
  | vFunc (f : JsFunc)

/-- The holder's `P+"Params"` entry: a function of the caller params, or a
plain object.  (`createFinalParams` ignores entries of any other type.) -/
inductive UserParamsEntry where
  | func (f : JObj → JObj)
  | obj (o : JObj)

/-- The projection of one configuration holder (`DefinitionObject`) at a
fixed extension-point name `P`: the values it carries at `P`,
`P+"Framework"`, `P+"Selector"` and `P+"Params"`. -/
structure Holder where
  prop : Option PropSlotValue
  fw : Option RegisteredInput
  selector : Option SelectorFunc
  params : Option UserParamsEntry

/-- The installed framework adapter factory (`FrameworkComponentWrapper`):
`wrap(component, mandatoryMethodList, optionalMethodList, debugName)` returns
an object satisfying the native contract, modelled by the prototype it
produces; `asBean` is the wrapper object as it appears when stuffed into a
params object via `context.getBean`. -/
structure FrameworkWrapper where
  wrap : RegisteredInput → List String → List String → Option String → InstanceProto
  asBean : JObj

/-- The factory together with its autowired beans.  `registry` models
`userComponentRegistry.retrieve` (modelled from the spec — "retrieve(name)
returns the bound RegisteredComponent or none" — as `userComponentRegistry.ts`
is not in src/); `metadata` models `componentMetadataProvider.retrieve`;
`gridOptionsHolder` is the projection of the global `gridOptions` object used
when no definition object is supplied; `gridOptionsApi` is
`this.gridOptions.api`; `agGridReactBean` is `context.getBean('agGridReact')`. -/
structure Factory where
  registry : String → Option RegisteredComponent
  metadata : String → Option ComponentMetadata
  frameworkComponentWrapper : Option FrameworkWrapper
  gridOptionsHolder : Holder
  gridOptionsApi : JValue
  agGridReactBean : Option JObj

/-- The exceptions the factory can raise.  `specifiedTwice` and
`selectorAndComponent` are the two `ConflictingSpecification` messages;
`missingFrameworkAdapter` the framework-version error; `nullDeref` models a
JS `TypeError` from reading a property of `null`/`undefined`, tagged with the
expression that was null. -/
inductive JsError where
  | specifiedTwice (propertyName : String)
  | selectorAndComponent (propertyName : String)
  | missingFrameworkAdapter (propertyName : String)
  | nullDeref (what : String)
deriving DecidableEq, Repr

/-- The spec's `ConflictingSpecification` category covers both conflict
messages the code raises. -/
def JsError.isConflictingSpecification : JsError → Bool
  | .specifiedTwice _ => true
  | .selectorAndComponent _ => true
  | _ => false

/-! ## The factory's operations (from `userComponentFactory.ts`) -/

/-- JS truthiness of an optional string (`null`, `undefined` and `""` are
falsy). -/
def strTruthy : Option String → Bool
  | some s => s != ""
  | none => false

/-- The identity tag of a registered payload. -/
def tagOfInput : RegisteredInput → Nat
  | .rComp c => c.tag
  | .rFunc f => f
  | .rFw fw => fw

/-- Modelled from the spec: `agComponentUtils.adaptFunction` is not in src/.
"Function-form native spec: synthesized at resolution time into a wrapper
whose sole observable method invokes the original function and returns its
result."  It packages the given payload as a synthetic wrapper class inside a
`ComponentClassDef` carrying the given type and source. -/
def adaptFunction (propertyName : String) (component : RegisteredInput)
    (type : ComponentType) (source : ComponentSource) : ComponentClassDef :=
  { component := .adapted propertyName component, type := type, source := source,
    paramsFromSelector := none }

/-- `new componentToUse.component()` on the PLAIN_JAVASCRIPT branch.  A native
class stamps its own prototype; the synthetic wrapper adapted from a bare
function exposes only its single adapted method — in particular no `init` —
and shares no state between instances. -/
def constructInstance : CompRef → Instance
  | .jsClass c => newInstance c
  | .adapted _ f =>
      newInstance { tag := tagOfInput f, hasInit := false, initBehaviour := fun _ => none }
  | .fwRaw v =>
      newInstance { tag := tagOfInput v, hasInit := false, initBehaviour := fun _ => none }

/-- `lookupFromRegisteredComponents` (source lines 295–329): fall back to the
property name when no name is given, retrieve from the registry (`none` when
the name is unbound), and rebuild a `ComponentClassDef`: FRAMEWORK entries
pass their payload through as-is; plain entries are a native class when they
satisfy `doesImplementIComponent`, otherwise they are adapted as functions. -/
def lookupFromRegisteredComponents (fac : Factory) (propertyName : String)
    (componentNameOpt : Option String) : Option ComponentClassDef :=
  let componentName : String := componentNameOpt.getD propertyName
  match fac.registry componentName with
  | none => none
  | some registeredComponent =>
    if registeredComponent.type = ComponentType.FRAMEWORK then
      some { component := .fwRaw registeredComponent.component, type := .FRAMEWORK,
             source := .REGISTERED_BY_NAME, paramsFromSelector := none }
    else
      match registeredComponent.component with
      | .rComp c =>
          some { component := .jsClass c, type := .PLAIN_JAVASCRIPT,
                 source := if registeredComponent.source = .REGISTERED then
                   .REGISTERED_BY_NAME else .DEFAULT,
                 paramsFromSelector := none }
      | other =>
          some (adaptFunction propertyName other registeredComponent.type
            (if registeredComponent.source = .REGISTERED then .REGISTERED_BY_NAME
             else .DEFAULT))

/-- The classified form of one holder's entries for the extension point
(source lines 187–211). -/
structure ClassifiedSpec where
  hardcodedNameComponent : Option String
  hardcodedJsComponent : Option InstanceProto
  hardcodedJsFunction : Option JsFunc
  hardcodedFwComponent : Option RegisteredInput
  componentSelectorFunc : Option SelectorFunc

/-- Classification of the holder's `P` value (source lines 193–211): `true`
means "use the default" and records nothing, other booleans also record
nothing, a string is a name, a value satisfying the component contract is a
native class, anything else is a function; the `P+"Framework"` and
`P+"Selector"` slots are read unconditionally. -/
def classifySpec (definitionObject : Option Holder) : ClassifiedSpec :=
  match definitionObject with
  | none =>
    { hardcodedNameComponent := none, hardcodedJsComponent := none,
      hardcodedJsFunction := none, hardcodedFwComponent := none,
      componentSelectorFunc := none }
  | some h =>
    let triple : Option String × Option InstanceProto × Option JsFunc :=
      match h.prop with
      | none => (none, none, none)
      | some .vTrue => (none, none, none)
      | some .vFalse => (none, none, none)
      | some (.vStr s) => (some s, none, none)
      | some (.vComp c) => (none, some c, none)
      | some (.vFunc f) => (none, none, some f)
    { hardcodedNameComponent := triple.1, hardcodedJsComponent := triple.2.1,
      hardcodedJsFunction := triple.2.2, hardcodedFwComponent := h.fw,
      componentSelectorFunc := h.selector }

/-- `getComponentClassDef` (source lines 173–293).  Conflict checks use JS
truthiness (so an empty-string name does not count), the framework-adapter
check runs before the selector check, the precedence is framework > native
class > native function > registry lookup, and the registry-lookup result is
dereferenced without a null check (source line 288), which the model records
as a `nullDeref` error. -/
def getComponentClassDef (fac : Factory) (definitionObject : Option Holder)
    (propertyName : String) (params : JObj) (defaultComponentName : Option String) :
    Except JsError (Option ComponentClassDef) :=
  let cs := classifySpec definitionObject
  if (cs.hardcodedJsComponent.isSome && cs.hardcodedFwComponent.isSome)
      || (strTruthy cs.hardcodedNameComponent && cs.hardcodedFwComponent.isSome)
      || (cs.hardcodedJsFunction.isSome && cs.hardcodedFwComponent.isSome) then
    .error (.specifiedTwice propertyName)
  else if cs.hardcodedFwComponent.isSome && fac.frameworkComponentWrapper.isNone then
    .error (.missingFrameworkAdapter propertyName)
  else if cs.componentSelectorFunc.isSome &&
      (strTruthy cs.hardcodedNameComponent || cs.hardcodedJsComponent.isSome
        || cs.hardcodedJsFunction.isSome || cs.hardcodedFwComponent.isSome) then
    .error (.selectorAndComponent propertyName)
  else
    match cs.hardcodedFwComponent with
    | some fwv =>
        .ok (some { component := .fwRaw fwv, type := .FRAMEWORK,
                    source := .HARDCODED, paramsFromSelector := none })
    | none =>
      match cs.hardcodedJsComponent with
      | some c =>
          .ok (some { component := .jsClass c, type := .PLAIN_JAVASCRIPT,
                      source := .HARDCODED, paramsFromSelector := none })
      | none =>
        match cs.hardcodedJsFunction with
        | some f =>
            .ok (some (adaptFunction propertyName (.rFunc f) .PLAIN_JAVASCRIPT .HARDCODED))
        | none =>
          let selectorResult : Option ComponentSelectorResult :=
            match cs.componentSelectorFunc with
            | some sf => sf params
            | none => none
          let componentNameToUse : Option String :=
            if strTruthy (selectorResult.bind ComponentSelectorResult.component) then
              selectorResult.bind ComponentSelectorResult.component
            else if strTruthy cs.hardcodedNameComponent then
              cs.hardcodedNameComponent
            else
              defaultComponentName
          if !strTruthy componentNameToUse then
            .ok none
          else
            match lookupFromRegisteredComponents fac propertyName componentNameToUse with
            | none => .error (.nullDeref "registeredCompClassDef")
            | some rd =>
                .ok (some { type := rd.type, component := rd.component, source := rd.source,
                            paramsFromSelector :=
                              match selectorResult with
                              | some r => r.params
                              | none => none })

/-- `createFinalParams` (source lines 341–366): merge the caller params into a
fresh object, merge the holder's `P+"Params"` entry (invoking it with the
caller params when it is a function), merge the selector params, and set the
`api` key from `gridOptions.api` when it is absent or falsy (`if (!res.api)`). -/
def createFinalParams (fac : Factory) (definitionObject : Option Holder)
    (propertyName : String) (paramsFromGrid : JObj)
    (paramsFromSelector : Option JObj) : JObj :=
  let res0 : JObj := mergeObj [] paramsFromGrid
  let userParams : Option UserParamsEntry :=
    match definitionObject with
    | some h => h.params
    | none => none
  let res1 : JObj :=
    match userParams with
    | some (.func f) => mergeObj res0 (f paramsFromGrid)
    | some (.obj o) => mergeObj res0 o
    | none => res0
  let res2 : JObj :=
    match paramsFromSelector with
    | some s => mergeObj res1 s
    | none => res1
  if optTruthy (getKey res2 "api") then res2 else setKey res2 "api" fac.gridOptionsApi

/-- `createComponentInstance` (source lines 368–398): resolve the class
descriptor (propagating its errors), return `none` when nothing was resolved
(the `mandatory` flag only controls a `console.error`), construct plain
JavaScript components with `new`, and wrap framework components through the
optional framework wrapper — reading `wrap` off a missing wrapper, or method
lists off missing metadata, is a `nullDeref`. -/
def createComponentInstance (fac : Factory) (holder : Option Holder)
    (propertyName : String) (paramsForSelector : JObj)
    (defaultComponentName : Option String) (mandatory : Bool) :
    Except JsError (Option (Instance × Option JObj)) :=
  match getComponentClassDef fac holder propertyName paramsForSelector defaultComponentName with
  | .error e => .error e
  | .ok none => .ok none
  | .ok (some componentToUse) =>
    if componentToUse.type = ComponentType.PLAIN_JAVASCRIPT then
      .ok (some (constructInstance componentToUse.component, componentToUse.paramsFromSelector))
    else
      let thisComponentConfig : Option ComponentMetadata := fac.metadata propertyName
      match fac.frameworkComponentWrapper with
      | none => .error (.nullDeref "frameworkComponentWrapper")
      | some wrapper =>
        match thisComponentConfig with
        | none => .error (.nullDeref "thisComponentConfig")
        | some md =>
          let raw : RegisteredInput :=
            match componentToUse.component with
            | .fwRaw v => v
            | .jsClass c => .rComp c
            | .adapted _ f => f
          .ok (some
            (newInstance (wrapper.wrap raw md.mandatoryMethodList md.optionalMethodList
              defaultComponentName),
             componentToUse.paramsFromSelector))

/-- `initialiseComponent` (source lines 400–411): wire the component, return
`undefined` when it has no `init`, otherwise call `init` with the params —
first transformed by the customization callback when one is supplied (the
callback receives the params and the component). -/
def initialiseComponent (component : Instance) (agGridParams : JObj)
    (customInitParamsCb : Option (JObj → Instance → JObj)) :
    Instance × Option (AgPromise Unit) :=
  let wired : Instance := { component with wired := true }
  if !component.hasInit then (wired, none)
  else
    match customInitParamsCb with
    | none =>
        ({ wired with initArg := some agGridParams }, component.initBehaviour agGridParams)
    | some cb =>
        let arg : JObj := cb agGridParams wired
        ({ wired with initArg := some arg }, component.initBehaviour arg)

/-- The tail of `createUserComponent` (source lines 124–130): a `null`ish
deferred-init means `Promise.resolve(componentInstance)`, a returned promise
is mapped to the component instance. -/
def normalizeInit (r : Instance × Option (AgPromise Unit)) : AgPromise Instance :=
  match r.2 with
  | none => .resolved r.1
  | some p => p.map (fun _ => r.1)

/-- The params object `createUserComponent` builds before initialization
(source lines 116–122): the deep-merge result, then `agGridReact` set from the
bean when available (via `_.cloneObject`, which preserves the value in this
by-value model) and `{}` otherwise, then `frameworkComponentWrapper` set from
the bean and `{}` otherwise. -/
def mkFinalParamsWithBeans (fac : Factory) (definitionObject : Option Holder)
    (propertyName : String) (paramsFromGrid : JObj)
    (paramsFromSelector : Option JObj) : JObj :=
  setKey
    (setKey
      (createFinalParams fac definitionObject propertyName paramsFromGrid paramsFromSelector)
      "agGridReact"
      (JValue.vobj (match fac.agGridReactBean with | some b => b | none => [])))
    "frameworkComponentWrapper"
    (JValue.vobj (match fac.frameworkComponentWrapper with | some w => w.asBean | none => []))

/-- `createUserComponent` (source lines 99–131): substitute `gridOptions` for
a missing definition object, create the instance (propagating errors and the
`null` missing-component result), build the final params, initialise, and
normalize the outcome into one future. -/
def createUserComponent (fac : Factory) (definitionObject : Option Holder)
    (paramsFromGrid : JObj) (propertyName : String)
    (defaultComponentName : Option String) (mandatory : Bool)
    (customInitParamsCb : Option (JObj → Instance → JObj)) :
    Except JsError (Option (AgPromise Instance)) :=
  let defObj : Option Holder := some (definitionObject.getD fac.gridOptionsHolder)
  match createComponentInstance fac defObj propertyName paramsFromGrid defaultComponentName
    mandatory with
  | .error e => .error e
  | .ok none => .ok none
  | .ok (some (componentInstance, paramsFromSelector)) =>
    let finalParams := mkFinalParamsWithBeans fac defObj propertyName paramsFromGrid
      paramsFromSelector
    .ok (some (normalizeInit (initialiseComponent componentInstance finalParams
      customInitParamsCb)))

/-- `createUserComponentFromConcreteClass` (source lines 142–154): construct
the class, initialise it, and return the instance synchronously — the value
returned by `initialiseComponent` is dropped on the floor. -/
def createUserComponentFromConcreteClass (clazz : InstanceProto) (agGridParams : JObj)
    (customInitParamsCb : Option (JObj → Instance → JObj)) : Instance :=
  let internalComponent : Instance := newInstance clazz
  (initialiseComponent internalComponent agGridParams customInitParamsCb).1

/-! ## Spec-side reference definitions

These follow the words of the specification claims, to be compared against
the embedded source functions. -/

/-- The winning-descriptor selection exactly as claimed: "a hardcoded
framework reference wins over a hardcoded native instance, which wins over a
hardcoded native function (adapted into a wrapper), which wins over a Registry
lookup whose name is chosen, in order, from the selector's returned component
name, the hardcoded string name, and the default component name" — with a
Registry lookup that finds nothing yielding none. -/
def precedenceClaimed (fac : Factory) (definitionObject : Option Holder)
    (propertyName : String) (params : JObj) (defaultComponentName : Option String) :
    Option ComponentClassDef :=
  let cs := classifySpec definitionObject
  match cs.hardcodedFwComponent with
  | some fwv =>
      some { component := .fwRaw fwv, type := .FRAMEWORK,
             source := .HARDCODED, paramsFromSelector := none }
  | none =>
    match cs.hardcodedJsComponent with
    | some c =>
        some { component := .jsClass c, type := .PLAIN_JAVASCRIPT,
               source := .HARDCODED, paramsFromSelector := none }
    | none =>
      match cs.hardcodedJsFunction with
      | some f => some (adaptFunction propertyName (.rFunc f) .PLAIN_JAVASCRIPT .HARDCODED)
      | none =>
        let selectorResult : Option ComponentSelectorResult :=
          match cs.componentSelectorFunc with
          | some sf => sf params
          | none => none
        let chosenName : Option String :=
          (selectorResult.bind ComponentSelectorResult.component).orElse
            (fun _ => cs.hardcodedNameComponent.orElse (fun _ => defaultComponentName))
        match chosenName with
        | none => none
        | some n =>
          match lookupFromRegisteredComponents fac propertyName (some n) with
          | none => none
          | some rd =>
              some { rd with paramsFromSelector :=
                       match selectorResult with
                       | some r => r.params
                       | none => none }

/-- The winning-descriptor selection as amended: identical to the claimed
precedence except that a candidate name is considered only when it is a
nonempty string — an empty selector-chosen or hardcoded or default name is
skipped exactly as JS truthiness skips it. -/
def precedenceAmended (fac : Factory) (definitionObject : Option Holder)
    (propertyName : String) (params : JObj) (defaultComponentName : Option String) :
    Option ComponentClassDef :=
  let cs := classifySpec definitionObject
  match cs.hardcodedFwComponent with
  | some fwv =>
      some { component := .fwRaw fwv, type := .FRAMEWORK,
             source := .HARDCODED, paramsFromSelector := none }
  | none =>
    match cs.hardcodedJsComponent with
    | some c =>
        some { component := .jsClass c, type := .PLAIN_JAVASCRIPT,
               source := .HARDCODED, paramsFromSelector := none }
    | none =>
      match cs.hardcodedJsFunction with
      | some f => some (adaptFunction propertyName (.rFunc f) .PLAIN_JAVASCRIPT .HARDCODED)
      | none =>
        let selectorResult : Option ComponentSelectorResult :=
          match cs.componentSelectorFunc with
          | some sf => sf params
          | none => none
        let chosenName : Option String :=
          if strTruthy (selectorResult.bind ComponentSelectorResult.component) then
            selectorResult.bind ComponentSelectorResult.component
          else if strTruthy cs.hardcodedNameComponent then cs.hardcodedNameComponent
          else if strTruthy defaultComponentName then defaultComponentName
          else none
        match chosenName with
        | none => none
        | some n =>
          match lookupFromRegisteredComponents fac propertyName (some n) with
          | none => none
          | some rd =>
              some { rd with paramsFromSelector :=
                       match selectorResult with
                       | some r => r.params
                       | none => none }

/-- The final-params pipeline exactly as claimed: deep-merge caller params,
then the holder's params entry (invoked with the caller params when a
function, used directly when an object), then selector params; "afterwards,
if no api key is present one is injected". -/
def finalParamsClaimed (fac : Factory) (definitionObject : Option Holder)
    (paramsFromGrid : JObj) (paramsFromSelector : Option JObj) : JObj :=
  let res0 : JObj := mergeObj [] paramsFromGrid
  let userParams : Option UserParamsEntry :=
    match definitionObject with
    | some h => h.params
    | none => none
  let res1 : JObj :=
    match userParams with
    | some (.func f) => mergeObj res0 (f paramsFromGrid)
    | some (.obj o) => mergeObj res0 o
    | none => res0
  let res2 : JObj :=
    match paramsFromSelector with
    | some s => mergeObj res1 s
    | none => res1
  match getKey res2 "api" with
  | some _ => res2
  | none => setKey res2 "api" fac.gridOptionsApi

/-- The final-params pipeline as amended: the same merge stages, but the api
key is (re)set from the grid api whenever it is absent *or its merged value is
falsy*, matching `if (!res.api)`. -/
def finalParamsAmended (fac : Factory) (definitionObject : Option Holder)
    (paramsFromGrid : JObj) (paramsFromSelector : Option JObj) : JObj :=
  let res0 : JObj := mergeObj [] paramsFromGrid
  let userParams : Option UserParamsEntry :=
    match definitionObject with
    | some h => h.params
    | none => none
  let res1 : JObj :=
    match userParams with
    | some (.func f) => mergeObj res0 (f paramsFromGrid)
    | some (.obj o) => mergeObj res0 o
    | none => res0
  let res2 : JObj :=
    match paramsFromSelector with
    | some s => mergeObj res1 s
    | none => res1
  if optTruthy (getKey res2 "api") then res2 else setKey res2 "api" fac.gridOptionsApi

/-! ## Concrete fixtures used by the theorems -/

/-- A holder with nothing specified at the extension point. -/
def emptyHolder : Holder := { prop := none, fw := none, selector := none, params := none }

/-- A baseline factory: empty registry, no metadata, no framework wrapper,
grid api handle `"gridApi"`. -/
def baseFactory : Factory :=
  { registry := fun _ => none, metadata := fun _ => none,
    frameworkComponentWrapper := none, gridOptionsHolder := emptyHolder,
    gridOptionsApi := .vstr "gridApi", agGridReactBean := none }

/-- A component class with no `init` entry point. -/
def protoNoInit : InstanceProto :=
  { tag := 1, hasInit := false, initBehaviour := fun _ => none }

/-- A component class whose `init` returns synchronously (`undefined`). -/
def protoSyncInit : InstanceProto :=
  { tag := 2, hasInit := true, initBehaviour := fun _ => none }

/-- A component class whose `init` returns a promise that completes at
external event 5. -/
def protoDeferredInit : InstanceProto :=
  { tag := 3, hasInit := true, initBehaviour := fun _ => some (.pending 5 (.ok ())) }

/-- A registry binding only the name `"agDefault"`, to a built-in native
class. -/
def regDefaultOnly : String → Option RegisteredComponent := fun s =>
  if s = "agDefault" then
    some ({ component := .rComp protoNoInit, type := .PLAIN_JAVASCRIPT, source := .DEFAULT })
  else none

/-- A registry binding only the name `"fwComp"`, to an explicitly registered
framework component. -/
def regFrameworkOnly : String → Option RegisteredComponent := fun s =>
  if s = "fwComp" then
    some ({ component := .rFw 7, type := .FRAMEWORK, source := .REGISTERED })
  else none

/-! ## Helper lemmas -/

theorem getKey_setKey_self : ∀ (m : JObj) (k : String) (v : JValue),
    getKey (setKey m k v) k = some v
  | [], k, v => by simp [setKey, getKey]
  | (k', v') :: rest, k, v => by
      by_cases h : k' = k
      · simp [setKey, getKey, h]
      · simp [setKey, getKey, h, getKey_setKey_self rest k v]

theorem getKey_setKey_ne : ∀ (m : JObj) (k k1 : String) (v : JValue), k ≠ k1 →
    getKey (setKey m k v) k1 = getKey m k1
  | [], k, k1, v, h => by simp [setKey, getKey, h]
  | (k', v') :: rest, k, k1, v, h => by
      by_cases h' : k' = k
      · simp [setKey, getKey, h', h]
      · by_cases h1 : k' = k1
        · simp [setKey, getKey, h', h1, Ne.symm h]
        · simp [setKey, getKey, h', h1, getKey_setKey_ne rest k k1 v h]

/-! ## Claim theorems -/

/-- C8: a boolean `true` at the extension-point slot records no hardcoded
form — the classified spec is exactly that of a holder with the slot unset —
and both descriptor resolution and the full creation call behave exactly as
if `P` were unset, falling through to selector/default-name registry lookup. -/
theorem trueMeansUseDefault (fac : Factory) (h : Holder) (propertyName : String)
    (params : JObj) (defaultComponentName : Option String) (mandatory : Bool)
    (cb : Option (JObj → Instance → JObj)) :
    classifySpec (some { h with prop := some .vTrue })
        = classifySpec (some { h with prop := none })
  ∧ getComponentClassDef fac (some { h with prop := some .vTrue }) propertyName params
        defaultComponentName
      = getComponentClassDef fac (some { h with prop := none }) propertyName params
        defaultComponentName
  ∧ createUserComponent fac (some { h with prop := some .vTrue }) params propertyName
        defaultComponentName mandatory cb
      = createUserComponent fac (some { h with prop := none }) params propertyName
        defaultComponentName mandatory cb :=
  ⟨rfl, rfl, rfl⟩

/-- C7: when the instance exposes an `init` entry point, a supplied
`customInitParamsCb` is invoked with exactly the params passed to
initialization and the (wired) instance, and `init` receives the callback's
return value — recorded in `initArg` and fed to `initBehaviour` — while with
no callback `init` receives the params unchanged. -/
theorem customInitParamsCbSemantics (component : Instance) (agGridParams : JObj)
    (cb : JObj → Instance → JObj) (hinit : component.hasInit = true) :
    (initialiseComponent component agGridParams (some cb)).1.initArg
        = some (cb agGridParams { component with wired := true })
  ∧ (initialiseComponent component agGridParams (some cb)).2
        = component.initBehaviour (cb agGridParams { component with wired := true })
  ∧ (initialiseComponent component agGridParams none).1.initArg = some agGridParams
  ∧ (initialiseComponent component agGridParams none).2
        = component.initBehaviour agGridParams := by
  simp [initialiseComponent, hinit]

/-- A concrete instance of the fixture class with a synchronous `init`. -/
def instSyncW : Instance := newInstance protoSyncInit

theorem customInitParamsCbSemantics_witness :
    (initialiseComponent instSyncW [] (some (fun p _ => setKey p "extra" (.vnum 1)))).1.initArg
        = some [("extra", .vnum 1)]
  ∧ (initialiseComponent instSyncW [] none).1.initArg = some [] := by
  have h := customInitParamsCbSemantics instSyncW []
    (fun p _ => setKey p "extra" (.vnum 1)) rfl
  exact ⟨h.1, h.2.2.1⟩

/-- C10: `createUserComponentFromConcreteClass` returns the freshly
constructed (wired, initialised) instance itself, synchronously — it is the
first component of `initialiseComponent`'s result, and the deferred value
`initialiseComponent` returns is dropped; consequently nothing observable
about the returned instance (tag, wiring, init argument) depends on what the
instance's `init` returns, including an eventually failing deferred. -/
theorem concreteClassBypassDiscardsDeferred (clazz : InstanceProto) (agGridParams : JObj)
    (cb : Option (JObj → Instance → JObj)) (b' : JObj → Option (AgPromise Unit)) :
    createUserComponentFromConcreteClass clazz agGridParams cb
      = (initialiseComponent (newInstance clazz) agGridParams cb).1
  ∧ (createUserComponentFromConcreteClass { clazz with initBehaviour := b' } agGridParams cb).tag
      = (createUserComponentFromConcreteClass clazz agGridParams cb).tag
  ∧ (createUserComponentFromConcreteClass { clazz with initBehaviour := b' } agGridParams cb).wired
      = (createUserComponentFromConcreteClass clazz agGridParams cb).wired
  ∧ (createUserComponentFromConcreteClass { clazz with initBehaviour := b' } agGridParams none).initArg
      = (createUserComponentFromConcreteClass clazz agGridParams none).initArg := by
  unfold createUserComponentFromConcreteClass initialiseComponent newInstance
  cases cb <;> by_cases h : clazz.hasInit <;> simp [h]

/-- C4 (documenting the code bug): with `mandatory := false` and a default
name that is bound to nothing in the registry, the registry lookup dutifully
returns `none` (source line 300), but `getComponentClassDef` dereferences
that `null` without a check (source line 288), so the public creation call
raises a `TypeError` instead of returning none. -/
theorem registryMissDereferencesNull :
    lookupFromRegisteredComponents baseFactory "myComp" (some "agUnknownComp") = none
  ∧ getComponentClassDef baseFactory (some emptyHolder) "myComp" [] (some "agUnknownComp")
      = .error (.nullDeref "registeredCompClassDef")
  ∧ createUserComponent baseFactory none [] "myComp" (some "agUnknownComp") false none
      = .error (.nullDeref "registeredCompClassDef") :=
  ⟨rfl, rfl, rfl⟩

/-- A holder whose `P+"Params"` entry is the object `{b:{y:2}}`. -/
def holderParamsB : Holder :=
  { emptyHolder with params := some (.obj [("b", .vobj [("y", .vnum 2)])]) }

/-- C2 (amended): `createFinalParams` deep-merges caller params, then the
holder's `P+"Params"` entry, then selector params, and afterwards sets the
`api` key from the grid api whenever it is absent *or holds a falsy value*
(not only when absent); and on the claim's concrete example — caller
`{a:1, b:{x:1}}`, holder params `{b:{y:2}}`, selector `{a:3}` — it produces
`{a:3, b:{x:1,y:2}, api: <injected>}`. -/
theorem finalParamsRefinement (fac : Factory) (definitionObject : Option Holder)
    (propertyName : String) (paramsFromGrid : JObj) (paramsFromSelector : Option JObj) :
    createFinalParams fac definitionObject propertyName paramsFromGrid paramsFromSelector
      = finalParamsAmended fac definitionObject paramsFromGrid paramsFromSelector
  ∧ createFinalParams baseFactory (some holderParamsB) "comp"
        [("a", .vnum 1), ("b", .vobj [("x", .vnum 1)])] (some [("a", .vnum 3)])
      = [("a", .vnum 3), ("b", .vobj [("x", .vnum 1), ("y", .vnum 2)]),
         ("api", .vstr "gridApi")] :=
  ⟨rfl, rfl⟩

/-- C2 counterexample: when the merged params carry `api: false` — present
but falsy — the code overwrites it with the grid api, while the claimed
pipeline ("if no api key is present one is injected") keeps the `false`. -/
theorem finalParamsApiFalsyOverwritten :
    createFinalParams baseFactory (some emptyHolder) "comp" [("api", .vbool false)] none
      = [("api", .vstr "gridApi")]
  ∧ finalParamsClaimed baseFactory (some emptyHolder) [("api", .vbool false)] none
      = [("api", .vbool false)]
  ∧ ([("api", JValue.vstr "gridApi")] : JObj) ≠ [("api", JValue.vbool false)] := by
  refine ⟨rfl, rfl, ?_⟩
  simp

/-- A holder hardcoding a native class whose `init` returns synchronously. -/
def holderSyncComp : Holder := { emptyHolder with prop := some (.vComp protoSyncInit) }

/-- A holder hardcoding a native class whose `init` returns a deferred. -/
def holderDeferredComp : Holder := { emptyHolder with prop := some (.vComp protoDeferredInit) }

/-- The final params `baseFactory` produces for empty caller params: the
injected api handle plus the two bean keys. -/
def beanParamsW : JObj :=
  [("api", .vstr "gridApi"), ("agGridReact", .vobj []), ("frameworkComponentWrapper", .vobj [])]

/-- C9: the params object the creation call passes onward to initialization
always carries the keys `agGridReact` (the bean when available, else an empty
object) and `frameworkComponentWrapper` (likewise) on top of the deep-merge
result, whatever the caller, holder and selector param sources contain; and on
a successful creation with an init-bearing instance and no callback, `init`
receives exactly this object. -/
theorem beansInjectedIntoFinalParams (fac : Factory) (holder : Holder)
    (propertyName : String) (paramsFromGrid : JObj) (paramsFromSelector : Option JObj)
    (defaultComponentName : Option String) (mandatory : Bool)
    (inst : Instance) (selPar : Option JObj)
    (h : createComponentInstance fac (some holder) propertyName paramsFromGrid
          defaultComponentName mandatory = .ok (some (inst, selPar)))
    (hinit : inst.hasInit = true) :
    getKey (mkFinalParamsWithBeans fac (some holder) propertyName paramsFromGrid
        paramsFromSelector) "agGridReact"
      = some (.vobj (match fac.agGridReactBean with | some b => b | none => []))
  ∧ getKey (mkFinalParamsWithBeans fac (some holder) propertyName paramsFromGrid
        paramsFromSelector) "frameworkComponentWrapper"
      = some (.vobj (match fac.frameworkComponentWrapper with | some w => w.asBean | none => []))
  ∧ createUserComponent fac (some holder) paramsFromGrid propertyName defaultComponentName
        mandatory none
      = .ok (some (normalizeInit
          ({ inst with
              wired := true,
              initArg := some (mkFinalParamsWithBeans fac (some holder) propertyName
                paramsFromGrid selPar) },
           inst.initBehaviour (mkFinalParamsWithBeans fac (some holder) propertyName
             paramsFromGrid selPar)))) := by
  refine ⟨?_, ?_, ?_⟩
  · unfold mkFinalParamsWithBeans
    rw [getKey_setKey_ne _ "frameworkComponentWrapper" "agGridReact" _ (by decide),
      getKey_setKey_self]
  · exact getKey_setKey_self _ _ _
  · simp [createUserComponent, h, initialiseComponent, hinit]

theorem beansInjectedIntoFinalParams_witness :
    getKey (mkFinalParamsWithBeans baseFactory (some holderSyncComp) "comp" [] none)
        "agGridReact" = some (.vobj [])
  ∧ getKey (mkFinalParamsWithBeans baseFactory (some holderSyncComp) "comp" [] none)
        "frameworkComponentWrapper" = some (.vobj [])
  ∧ createUserComponent baseFactory (some holderSyncComp) [] "comp" none true none
      = .ok (some (.resolved
          { tag := 2, hasInit := true, initBehaviour := fun _ => none,
            wired := true, initArg := some beanParamsW })) := by
  have h := beansInjectedIntoFinalParams baseFactory holderSyncComp "comp" [] none none true
    (newInstance protoSyncInit) none rfl rfl
  exact ⟨h.1, h.2.1, h.2.2⟩

/-- C6: when the public creation call returns a component, it returns the
future built by `normalizeInit`: a `null`ish deferred-init — covering both an
instance without an `init` entry point and an `init` that returned
synchronously — yields an already-resolved future holding the instance; an
`init` that returned an already-resolved promise likewise; and a deferred
`init` return yields a future that resolves to the instance exactly when the
deferred completes. -/
theorem creationFutureNormalization (fac : Factory) (holder : Holder)
    (paramsFromGrid : JObj) (propertyName : String) (defaultComponentName : Option String)
    (mandatory : Bool) (cb : Option (JObj → Instance → JObj))
    (inst : Instance) (selPar : Option JObj)
    (h : createComponentInstance fac (some holder) propertyName paramsFromGrid
          defaultComponentName mandatory = .ok (some (inst, selPar)))
    (r : Instance × Option (AgPromise Unit)) :
    createUserComponent fac (some holder) paramsFromGrid propertyName defaultComponentName
        mandatory cb
      = .ok (some (normalizeInit (initialiseComponent inst
          (mkFinalParamsWithBeans fac (some holder) propertyName paramsFromGrid selPar) cb)))
  ∧ (r.2 = none → normalizeInit r = .resolved r.1)
  ∧ (r.2 = some (.resolved ()) → normalizeInit r = .resolved r.1)
  ∧ (∀ t, r.2 = some (.pending t (.ok ())) → normalizeInit r = .pending t (.ok r.1)) := by
  refine ⟨?_, ?_, ?_, ?_⟩
  · simp [createUserComponent, h]
  · intro h2; simp [normalizeInit, h2]
  · intro h2; simp [normalizeInit, h2, AgPromise.map]
  · intro t h2; simp [normalizeInit, h2, AgPromise.map]

theorem creationFutureNormalization_witness :
    createUserComponent baseFactory (some holderDeferredComp) [] "comp" none true none
      = .ok (some (.pending 5 (.ok
          { tag := 3, hasInit := true,
            initBehaviour := fun _ => some (.pending 5 (.ok ())),
            wired := true, initArg := some beanParamsW })))
  ∧ createUserComponent baseFactory (some { emptyHolder with prop := some (.vComp protoNoInit) })
        [] "comp" none true none
      = .ok (some (.resolved
          { tag := 1, hasInit := false, initBehaviour := fun _ => none,
            wired := true, initArg := none })) := by
  have h1 := creationFutureNormalization baseFactory holderDeferredComp [] "comp" none true
    none (newInstance protoDeferredInit) none rfl
    (newInstance protoDeferredInit, none)
  have h2 := creationFutureNormalization baseFactory
    { emptyHolder with prop := some (.vComp protoNoInit) } [] "comp" none true
    none (newInstance protoNoInit) none rfl (newInstance protoNoInit, none)
  exact ⟨h1.1, h2.1⟩

/-- A holder carrying a selector together with a framework reference. -/
def holderSelectorFw : Holder :=
  { emptyHolder with fw := some (.rFw 7), selector := some (fun _ => none) }

/-- C3 counterexample: with a selector coexisting with a (framework)
hardcoded form but no adapter factory installed, the adapter check at source
line 226 fires before the selector-conflict check at line 230, so the error
raised is MissingFrameworkAdapter, not a ConflictingSpecification. -/
theorem selectorFwConflictPreempted :
    getComponentClassDef baseFactory (some holderSelectorFw) "comp" [] none
      = .error (.missingFrameworkAdapter "comp")
  ∧ (JsError.missingFrameworkAdapter "comp").isConflictingSpecification = false :=
  ⟨rfl, rfl⟩

/-- C3 (amended): a framework reference coexisting with a truthy native
hardcoded form always raises ConflictingSpecification (the "specified twice"
error) and creates nothing; a selector coexisting with any truthy hardcoded
form always raises synchronously and creates nothing, with the error being a
ConflictingSpecification except when the only conflict partner is a framework
reference and no adapter factory is installed, in which case
MissingFrameworkAdapter is raised first. -/
theorem conflictingSpecificationRaised (fac : Factory) (defObj : Option Holder)
    (propertyName : String) (params : JObj) (defaultName : Option String)
    (mandatory : Bool) :
    ((classifySpec defObj).hardcodedFwComponent.isSome = true →
     (strTruthy (classifySpec defObj).hardcodedNameComponent
        || (classifySpec defObj).hardcodedJsComponent.isSome
        || (classifySpec defObj).hardcodedJsFunction.isSome) = true →
     getComponentClassDef fac defObj propertyName params defaultName
         = .error (.specifiedTwice propertyName)
       ∧ createComponentInstance fac defObj propertyName params defaultName mandatory
         = .error (.specifiedTwice propertyName))
  ∧ ((classifySpec defObj).componentSelectorFunc.isSome = true →
     (strTruthy (classifySpec defObj).hardcodedNameComponent
        || (classifySpec defObj).hardcodedJsComponent.isSome
        || (classifySpec defObj).hardcodedJsFunction.isSome
        || (classifySpec defObj).hardcodedFwComponent.isSome) = true →
     ∃ e, getComponentClassDef fac defObj propertyName params defaultName = .error e
       ∧ createComponentInstance fac defObj propertyName params defaultName mandatory
           = .error e
       ∧ (e.isConflictingSpecification = true
          ∨ (e = .missingFrameworkAdapter propertyName
             ∧ (classifySpec defObj).hardcodedFwComponent.isSome = true
             ∧ fac.frameworkComponentWrapper = none))) := by
  constructor
  · intro hfw hnat
    have hg : getComponentClassDef fac defObj propertyName params defaultName
        = .error (.specifiedTwice propertyName) := by
      unfold getComponentClassDef
      rcases Bool.eq_false_or_eq_true
          (strTruthy (classifySpec defObj).hardcodedNameComponent) with ha | ha <;>
        rcases Bool.eq_false_or_eq_true
            ((classifySpec defObj).hardcodedJsComponent.isSome) with hb | hb <;>
          rcases Bool.eq_false_or_eq_true
              ((classifySpec defObj).hardcodedJsFunction.isSome) with hc | hc <;>
            simp [ha, hb, hc, hfw] at hnat ⊢
    exact ⟨hg, by simp [createComponentInstance, hg]⟩
  · intro hsel hany
    by_cases h1 : ((classifySpec defObj).hardcodedJsComponent.isSome
          && (classifySpec defObj).hardcodedFwComponent.isSome
        || strTruthy (classifySpec defObj).hardcodedNameComponent
          && (classifySpec defObj).hardcodedFwComponent.isSome
        || (classifySpec defObj).hardcodedJsFunction.isSome
          && (classifySpec defObj).hardcodedFwComponent.isSome) = true
    · have hg : getComponentClassDef fac defObj propertyName params defaultName
          = .error (.specifiedTwice propertyName) := by
        unfold getComponentClassDef
        simp [h1]
      exact ⟨.specifiedTwice propertyName, hg,
        by simp [createComponentInstance, hg], Or.inl rfl⟩
    · by_cases h2 : ((classifySpec defObj).hardcodedFwComponent.isSome
          && fac.frameworkComponentWrapper.isNone) = true
      · have hg : getComponentClassDef fac defObj propertyName params defaultName
            = .error (.missingFrameworkAdapter propertyName) := by
          unfold getComponentClassDef
          simp [h1, h2]
        have h2' : (classifySpec defObj).hardcodedFwComponent.isSome = true
            ∧ fac.frameworkComponentWrapper.isNone = true := by simpa using h2
        refine ⟨.missingFrameworkAdapter propertyName, hg,
          by simp [createComponentInstance, hg], Or.inr ⟨rfl, h2'.1, ?_⟩⟩
        exact Option.isNone_iff_eq_none.mp h2'.2
      · have hg : getComponentClassDef fac defObj propertyName params defaultName
            = .error (.selectorAndComponent propertyName) := by
          unfold getComponentClassDef
          simp [h1, h2, hsel, hany]
        exact ⟨.selectorAndComponent propertyName, hg,
          by simp [createComponentInstance, hg], Or.inl rfl⟩

/-- A holder carrying a hardcoded name, a framework reference and a
selector all at once. -/
def holderNameFwSel : Holder :=
  { emptyHolder with prop := some (.vStr "x"), fw := some (.rFw 9),
                     selector := some (fun _ => none) }

theorem conflictingSpecificationRaised_witness :
    getComponentClassDef baseFactory (some holderNameFwSel) "comp" [] none
      = .error (.specifiedTwice "comp")
  ∧ createComponentInstance baseFactory (some holderNameFwSel) "comp" [] none true
      = .error (.specifiedTwice "comp") := by
  have h := conflictingSpecificationRaised baseFactory (some holderNameFwSel) "comp" [] none
    true
  exact h.1 rfl rfl

/-- A factory whose registry binds `"fwComp"` to a registered framework
component, with metadata installed but no framework wrapper. -/
def facFwRegistry : Factory :=
  { baseFactory with
      registry := regFrameworkOnly,
      metadata := fun _ => some { mandatoryMethodList := ["init"], optionalMethodList := [] } }

/-- The descriptor the registry lookup produces for `"fwComp"`. -/
def descFwRegistry : ComponentClassDef :=
  { component := .fwRaw (.rFw 7), type := .FRAMEWORK,
    source := .REGISTERED_BY_NAME, paramsFromSelector := none }

/-- C5 counterexample: a registry-resolved framework-kind descriptor with no
adapter factory installed does not make resolution fail with
MissingFrameworkAdapter — `getComponentClassDef` succeeds, and the failure
happens only inside `createComponentInstance`, at the attempt to read `wrap`
off the missing wrapper (a TypeError). -/
theorem registryFrameworkNoAdapterTypeError :
    getComponentClassDef facFwRegistry none "comp" [] (some "fwComp")
      = .ok (some descFwRegistry)
  ∧ descFwRegistry.type = .FRAMEWORK
  ∧ createComponentInstance facFwRegistry none "comp" [] (some "fwComp") true
      = .error (.nullDeref "frameworkComponentWrapper")
  ∧ JsError.nullDeref "frameworkComponentWrapper" ≠ .missingFrameworkAdapter "comp" := by
  refine ⟨rfl, rfl, rfl, ?_⟩
  simp

/-- C5 (amended): when the framework reference is hardcoded on the holder
(and no truthy native hardcoded form coexists, which would raise the conflict
error first), a missing adapter factory makes resolution fail with
MissingFrameworkAdapter already inside `getComponentClassDef`, so
`createComponentInstance` propagates that error and neither constructs nor
wraps anything; a framework-kind descriptor coming from the registry instead
fails later, at the wrap attempt. -/
theorem missingFrameworkAdapterRaised (fac : Factory) (defObj : Option Holder)
    (propertyName : String) (params : JObj) (defaultName : Option String)
    (mandatory : Bool)
    (hfw : (classifySpec defObj).hardcodedFwComponent.isSome = true)
    (hw : fac.frameworkComponentWrapper = none)
    (hname : strTruthy (classifySpec defObj).hardcodedNameComponent = false)
    (hcomp : (classifySpec defObj).hardcodedJsComponent = none)
    (hfunc : (classifySpec defObj).hardcodedJsFunction = none) :
    getComponentClassDef fac defObj propertyName params defaultName
      = .error (.missingFrameworkAdapter propertyName)
  ∧ createComponentInstance fac defObj propertyName params defaultName mandatory
      = .error (.missingFrameworkAdapter propertyName) := by
  have hg : getComponentClassDef fac defObj propertyName params defaultName
      = .error (.missingFrameworkAdapter propertyName) := by
    unfold getComponentClassDef
    simp [hfw, hw, hname, hcomp, hfunc]
  exact ⟨hg, by simp [createComponentInstance, hg]⟩

/-- A holder carrying only a framework reference. -/
def holderFwOnly : Holder := { emptyHolder with fw := some (.rFw 7) }

theorem missingFrameworkAdapterRaised_witness :
    getComponentClassDef baseFactory (some holderFwOnly) "comp" [] none
      = .error (.missingFrameworkAdapter "comp")
  ∧ createComponentInstance baseFactory (some holderFwOnly) "comp" [] none true
      = .error (.missingFrameworkAdapter "comp") :=
  missingFrameworkAdapterRaised baseFactory (some holderFwOnly) "comp" [] none true
    rfl rfl rfl rfl rfl

/-- A factory whose registry binds only the default name `"agDefault"`. -/
def facDefaultRegistry : Factory := { baseFactory with registry := regDefaultOnly }

def holderEmptyName : Holder := { emptyHolder with prop := some (.vStr "") }

def descDefaultLookup : ComponentClassDef :=
  { component := .jsClass protoNoInit, type := .PLAIN_JAVASCRIPT,
    source := .DEFAULT, paramsFromSelector := none }

theorem emptyNameSkippedByResolution :
    getComponentClassDef facDefaultRegistry (some holderEmptyName) "comp" [] (some "agDefault")
      = .ok (some descDefaultLookup)
  ∧ precedenceClaimed facDefaultRegistry (some holderEmptyName) "comp" [] (some "agDefault")
      = none
  ∧ some descDefaultLookup ≠ (none : Option ComponentClassDef) := by
  refine ⟨rfl, rfl, ?_⟩
  simp

theorem resolutionPrecedence (fac : Factory) (defObj : Option Holder)
    (propertyName : String) (params : JObj) (defaultName : Option String)
    (res : Option ComponentClassDef)
    (h : getComponentClassDef fac defObj propertyName params defaultName = .ok res) :
    res = precedenceAmended fac defObj propertyName params defaultName := by
  simp only [getComponentClassDef] at h
  simp only [precedenceAmended]
  generalize hcs : classifySpec defObj = cs at h ⊢
  obtain ⟨nm, co, fn, fw, sel⟩ := cs
  split at h
  · simp at h
  · split at h
    · simp at h
    · split at h
      · simp at h
      · cases fw with
        | some fwv => simp_all
        | none =>
          cases co with
          | some c => simp_all
          | none =>
            cases fn with
            | some f => simp_all
            | none =>
              dsimp only at h ⊢
              generalize (match sel with | some sf => sf params | none => none) = selR at h ⊢
              generalize (match selR with | some r => r.params | none => none) = selPar at h ⊢
              by_cases hA : strTruthy (selR.bind ComponentSelectorResult.component) = true
              · rcases hsb : selR.bind ComponentSelectorResult.component with _ | n
                · rw [hsb] at hA
                  simp [strTruthy] at hA
                · rw [hsb] at hA h
                  simp [hA] at h ⊢
                  rcases hlk : lookupFromRegisteredComponents fac propertyName (some n) with _ | rd
                  · rw [hlk] at h
                    exact absurd h (by simp)
                  · rw [hlk] at h
                    simp_all
              · simp [hA] at h ⊢
                by_cases hB : strTruthy nm = true
                · rcases nm with _ | s
                  · simp [strTruthy] at hB
                  · simp [hB] at h ⊢
                    rcases hlk : lookupFromRegisteredComponents fac propertyName (some s) with _ | rd
                    · rw [hlk] at h
                      exact absurd h (by simp)
                    · rw [hlk] at h
                      simp_all
                · simp [hB] at h ⊢
                  by_cases hD : strTruthy defaultName = true
                  · rcases defaultName with _ | s
                    · simp [strTruthy] at hD
                    · simp [hD] at h ⊢
                      rcases hlk : lookupFromRegisteredComponents fac propertyName (some s) with _ | rd
                      · rw [hlk] at h
                        exact absurd h (by simp)
                      · rw [hlk] at h
                        simp_all
                  · simp_all

theorem resolutionPrecedence_witness :
    some descDefaultLookup
      = precedenceAmended facDefaultRegistry (some emptyHolder) "comp" [] (some "agDefault") :=
  resolutionPrecedence facDefaultRegistry (some emptyHolder) "comp" [] (some "agDefault")
    (some descDefaultLookup) rfl

end AgGrid
